import Mathlib

/-!
Verification development for the ocore-wallet-client key-derivation and
verification engine (lib/common/utils.js, lib/common/constants.js,
lib/device.js, lib/copayer.js, lib/api.js Verifier).

The cryptographic collaborators (HD child derivation, SHA-256, HMAC,
base64/hex codecs, the canonical object hash) are external to the core per
the specification, so byte strings produced by them are modelled as a free
term algebra `CVal`: two values are equal exactly when they were computed by
the same primitive applied to the same arguments.  ECDSA signature
verification is passed in as an explicit function parameter where needed.
Fallible JavaScript code (precondition throws, try/catch) is modelled with
`Except`; `undefined`/missing object fields are modelled with `Option`, and
JavaScript truthiness of strings (empty string is falsy) is made explicit.
-/

deriving instance DecidableEq for Except

/-- Symbolic byte-string values: the free algebra over the external crypto
primitives used by the client.  `lit s` is a literal string (e.g. a
serialized master key or a server-supplied blob); the remaining constructors
record which primitive produced the value. -/
inductive CVal : Type where
  | lit : String → CVal
  /-- BIP32 child derivation of an extended (private or public) key at a
  path string (`xkey.deriveChild(path)`). -/
  | deriveChild : CVal → String → CVal
  /-- The extended public counterpart of an extended private key
  (`xPrivKey.hdPublicKey`). -/
  | hdPublic : CVal → CVal
  /-- The plain public key carried by an extended key (`xkey.publicKey`). -/
  | pubOfHD : CVal → CVal
  /-- The plain private key carried by an extended private key
  (`xkey.privateKey`). -/
  | privOfHD : CVal → CVal
  /-- `privateKey.toPublicKey()`. -/
  | pubOfPriv : CVal → CVal
  /-- `new Bitcore.PrivateKey(seedHex)`: a private scalar built from seed
  bytes. -/
  | privFromSeed : CVal → CVal
  | sha256 : CVal → CVal
  /-- `sha256hmac(data, label)` with a literal domain-separation label. -/
  | hmacWith : CVal → String → CVal
  /-- `buffer.slice(0, n)`. -/
  | slice : CVal → Nat → CVal
  /-- `Buffer.from(s, "hex")`: decode a hex string to bytes. -/
  | hexDecode : CVal → CVal
  /-- `buffer.toString("hex")`. -/
  | hexEncode : CVal → CVal
  /-- `buffer.toString("base64")`. -/
  | base64 : CVal → CVal
  deriving DecidableEq, Repr

/-- Structural address definitions as built by `Utils.deriveAddress`.
`sig k` stands for the array `["sig", {pubkey: k}]`; `rOfSet req ks` stands
for `["r of set", {required: req, set: [["sig", {pubkey: k}] for k in ks]}]`
(every member of the `set` array the source ever builds is itself a
`["sig", _]` entry, so the ordered list of their pubkeys determines the
set; `required` keeps the possibly-`undefined` JavaScript value as an
`Option`). -/
inductive Definition : Type where
  | sig : CVal → Definition
  | rOfSet : Option Nat → List CVal → Definition
  deriving DecidableEq, Repr

/-- Address-like identifier strings.  `raw s` is an arbitrary string (such
as a server-supplied address); `chash d` is `ObjectHash.getChash160(d)`, the
canonical checksummed content hash of a structural definition; `devId v` is
the device id `"0" + ObjectHash.getChash160(v)` computed by
`Utils.pubToDeviceId` over a base64 pubkey string `v`. -/
inductive Addr : Type where
  | raw : String → Addr
  | chash : Definition → Addr
  | devId : CVal → Addr
  deriving DecidableEq, Repr

/-- An sjcl ciphertext envelope: `sjcl.encrypt(password, plaintext)`.
Decryption succeeds exactly under the encrypting password (ideal-cipher
model of the external symmetric primitive). -/
structure Enc (α : Type) : Type where
  pw : String
  pt : α
  deriving DecidableEq, Repr

/-- `sjcl.encrypt(password, plaintext)`. -/
def sjclEncrypt {α : Type} (password : String) (pt : α) : Enc α := ⟨password, pt⟩

/-- `sjcl.decrypt(password, envelope)`: throws unless the password matches. -/
def sjclDecrypt {α : Type} (password : String) (c : Enc α) : Except Unit α :=
  if c.pw = password then .ok c.pt else .error ()

/-- JavaScript truthiness of a possibly-missing string: `undefined` and `""`
are falsy. -/
def truthyStr : Option String → Bool
  | none => false
  | some s => s ≠ ""

/-- JavaScript truthiness of a possibly-missing number: `undefined` and `0`
are falsy. -/
def truthyNat : Option Nat → Bool
  | none => false
  | some n => n ≠ 0

/-- Truthiness of a possibly-missing byte-string value.  A literal empty
string is falsy; every computed key/hash/ciphertext string is non-empty and
hence truthy. -/
def truthyC : Option CVal → Bool
  | none => false
  | some (.lit s) => s ≠ ""
  | some _ => true

/-- JavaScript `a || b` on possibly-missing strings. -/
def jsOrStr (a b : Option String) : Option String :=
  if truthyStr a then a else b

/-- JavaScript object-property assignment `obj[k] = v` on an association
list: an existing key is updated in place, a new key is appended. -/
def objInsert (m : List (CVal × String)) (k : CVal) (v : String) :
    List (CVal × String) :=
  if m.any (fun p => p.1 = k) then
    m.map (fun p => if p.1 = k then (k, v) else p)
  else
    m ++ [(k, v)]

/-- JavaScript object-property read `obj[k]` on an association list. -/
def objLookup (m : List (CVal × String)) (k : CVal) : Option String :=
  (m.find? (fun p => p.1 = k)).map (fun p => p.2)

namespace Constants

/-- `Constants.ADDRESS_TYPES` (lib/common/constants.js): note it has three
values, not two. -/
def ADDRESS_TYPES : List String := ["normal", "shared", "script"]

def PATHS_DEVICE_KEY : String := "m/1\x27"

def PATHS_REQUEST_KEY : String := "m/1\x27/0"

end Constants

/-- Faults raised by the `preconditions` package: `$.checkArgument` and
`$.checkState`. -/
inductive PreconditionErr : Type where
  | invalidArgument
  | invalidState
  deriving DecidableEq, Repr

/-- One entry of a wallet's public-key ring. -/
structure RingEntry : Type where
  xPubKey : CVal
  requestPubKey : Option CVal := none
  deviceId : Option Addr := none
  account : Option Nat := none
  deriving DecidableEq, Repr

/-- The record returned by `Utils.deriveAddress`.  `address` and
`definition` are `none` in the fall-through case the switch does not
handle. -/
structure AddressDef : Type where
  address : Option Addr
  definition : Option Definition
  path : String
  signingPaths : List (CVal × String)
  walletId : Option String
  deriving DecidableEq, Repr

/-- The leaf public key `new HDPublicKey(item.xPubKey).deriveChild(path)
.publicKey.toBuffer().toString("base64")` derived for one ring entry. -/
def leafKeyB64 (xPubKey : CVal) (path : String) : CVal :=
  .base64 (.pubOfHD (.deriveChild xPubKey path))

/-- The `publicKeys.forEach` loop of the SHARED case: starting at index `i`,
assign `signingPaths[pubkey] = "r." + ind` for each leaf key in order. -/
def buildSigningPathsFrom (i : Nat) (ks : List CVal)
    (acc : List (CVal × String)) : List (CVal × String) :=
  match ks with
  | [] => acc
  | k :: rest =>
      buildSigningPathsFrom (i + 1) rest (objInsert acc k ("r." ++ toString i))

/-- `Utils.deriveAddress(walletId, addressType, publicKeyRing, path, m)`
(lib/common/utils.js).  `$.checkArgument` admits every member of
`ADDRESS_TYPES` — including `"script"`, which no switch case handles, so
that branch returns a record whose `address` and `definition` are
`undefined`. -/
def deriveAddress (walletId : Option String) (addressType : Option String)
    (publicKeyRing : List RingEntry) (path : String) (m : Option Nat) :
    Except PreconditionErr AddressDef :=
  if ¬ (∃ t ∈ Constants.ADDRESS_TYPES, addressType = some t) then
    .error .invalidArgument
  else
    let publicKeys := publicKeyRing.map (fun item => leafKeyB64 item.xPubKey path)
    if addressType = some "normal" then
      if h : publicKeys.length = 1 then
        let pubkey := publicKeys.get ⟨0, by omega⟩
        .ok { address := some (.chash (.sig pubkey)),
              definition := some (.sig pubkey),
              path := path,
              signingPaths := objInsert [] pubkey "r",
              walletId := walletId }
      else
        .error .invalidState
    else if addressType = some "shared" then
      let defn := Definition.rOfSet m publicKeys
      .ok { address := some (.chash defn),
            definition := some defn,
            path := path,
            signingPaths := buildSigningPathsFrom 0 publicKeys [],
            walletId := walletId }
    else
      .ok { address := none,
            definition := none,
            path := path,
            signingPaths := [],
            walletId := walletId }

/-- The persisted fields of a `Copayer` (lib/copayer.js `FIELDS`), which
also serve as the in-memory state of the class.  Fields a fresh object has
not set yet are `none` (JavaScript `undefined`). -/
structure CopayerObj : Type where
  account : Option Nat := none
  copayerId : Option CVal := none
  copayerName : Option String := none
  xPubKey : Option CVal := none
  walletId : Option String := none
  walletName : Option String := none
  m : Option Nat := none
  n : Option Nat := none
  publicKeyRing : Option (List RingEntry) := none
  walletPrivKey : Option CVal := none
  sharedEncryptingKey : Option CVal := none
  addressType : Option String := none
  deriving DecidableEq, Repr

/-- `Utils.xPubToCopayerId`: sha256 of the xpub, base64-encoded. -/
def xPubToCopayerId (xpub : CVal) : CVal := .base64 (.sha256 xpub)

/-- `Utils.pubToDeviceId`: `"0" + getChash160(base64(hexDecode(pub)))`. -/
def pubToDeviceId (pub : CVal) : Addr := .devId (.base64 (.hexDecode pub))

/-- `Utils.privateKeyToAESKey`: sha256 of the key bytes, truncated to 16
bytes, base64-encoded. -/
def privateKeyToAESKey (k : CVal) : CVal := .base64 (.slice (.sha256 k) 16)

/-- `Copayer.prototype.addWalletPrivateKey`. -/
def addWalletPrivateKey (x : CopayerObj) (wpk : CVal) : CopayerObj :=
  { x with walletPrivKey := some wpk,
           sharedEncryptingKey := some (privateKeyToAESKey wpk) }

/-- `Copayer.prototype._expand(deviceId)`: requires `xPubKey`, computes the
copayer id and seeds the one-element public-key ring.  The ring entry's
`requestPubKey` is `this.requestPubKey`, a field the class never sets, so
it is `undefined`. -/
def copayerExpand (deviceId : Option Addr) (x : CopayerObj) :
    Except PreconditionErr CopayerObj :=
  if ¬ truthyC x.xPubKey then .error .invalidState
  else
    match x.xPubKey with
    | none => .error .invalidState
    | some xp =>
        .ok { x with
              copayerId := some (xPubToCopayerId xp),
              publicKeyRing := some [{ xPubKey := xp,
                                       requestPubKey := none,
                                       deviceId := deviceId,
                                       account := x.account }] }

/-- `Copayer.fromExtendedPublicKey(deviceId, xPubKey, account, opts)`. -/
def copayerFromExtendedPublicKey (deviceId : Option Addr) (xPubKey : CVal)
    (account : Nat) (walletPrivKey : Option CVal) :
    Except PreconditionErr CopayerObj :=
  let x : CopayerObj := { xPubKey := some xPubKey, account := some account }
  let x := match walletPrivKey with
           | some wpk => addWalletPrivateKey x wpk
           | none => x
  copayerExpand deviceId x

/-- `Copayer.fromObj(obj)`: copies the persisted fields, defaults
`account` to 0 and `addressType` to NORMAL, and requires `xPubKey`. -/
def copayerFromObj (o : CopayerObj) : Except PreconditionErr CopayerObj :=
  let x := { o with
             account := some (o.account.getD 0),
             addressType := jsOrStr o.addressType (some "normal") }
  if truthyC x.xPubKey then .ok x else .error .invalidState

/-- `Copayer.prototype.isComplete`. -/
def CopayerObj.isComplete (c : CopayerObj) : Bool :=
  if ¬ (truthyNat c.m ∧ truthyNat c.n) then false
  else match c.publicKeyRing with
       | none => false
       | some ring => ring.length = c.n.getD 0

/-- The persisted fields of a `Device` (lib/device.js `FIELDS`), which also
serve as the in-memory state of the class. -/
structure Device : Type where
  coin : Option String := none
  network : Option String := none
  derivationStrategy : Option String := none
  xPrivKey : Option CVal := none
  xPubKey : Option CVal := none
  xPrivKeyEncrypted : Option (Enc CVal) := none
  mnemonic : Option String := none
  mnemonicEncrypted : Option (Enc String) := none
  mnemonicHasPassphrase : Option Bool := none
  requestPrivKey : Option CVal := none
  requestPubKey : Option CVal := none
  personalEncryptingKey : Option CVal := none
  entropySource : Option CVal := none
  deviceId : Option Addr := none
  devicePubKey : Option CVal := none
  copayers : Option (List CopayerObj) := none
  deriving DecidableEq, Repr

/-- `Device._getNetworkFromExtendedKey`: the network is read off the first
character of the serialized key (`'t'` means testnet).  In the symbolic
model the leading character of a literal master key is inspected directly,
and an extended public key starts with `'t'` exactly when its private
counterpart does. -/
def startsWithT : CVal → Bool
  | .lit s => s.data.head? = some 't'
  | .hdPublic k => startsWithT k
  | _ => false

def getNetworkFromExtendedKey (k : CVal) : String :=
  if startsWithT k then "testnet" else "livenet"

/-- `Device.prototype._hashFromEntropy(prefix, length)`:
`sha256hmac(Buffer(entropySource, "hex"), Buffer(prefix)).slice(0, length)`. -/
def hashFromEntropy (entropySource : CVal) (label : String) (len : Nat) : CVal :=
  .slice (.hmacWith (.hexDecode entropySource) label) len

/-- `Device.prototype._expand` (lib/device.js).  Faults (`Except.error`)
are the `$.checkState` throws.  Note the request-keypair branch: when
`entropySource` is already present the request key is rebuilt from the
entropy hash, and only otherwise is it derived from the master private key
(in which case `entropySource` is then set to `sha256(requestPrivKey)`). -/
def expand (d : Device) : Except PreconditionErr Device :=
  if ¬ (d.xPrivKey.isSome ∨
        (d.xPubKey.isSome ∧ d.devicePubKey.isSome ∧ d.entropySource.isSome)) then
    .error .invalidState
  else
    let network := getNetworkFromExtendedKey ((d.xPrivKey.orElse (fun _ => d.xPubKey)).getD (.lit ""))
    let checkedNet : Except PreconditionErr Device :=
      match d.network with
      | some n => if n = network then .ok d else .error .invalidState
      | none => .ok { d with network := some network }
    checkedNet.bind (fun d =>
      let d := match d.xPrivKey with
        | some xprv =>
            { d with xPubKey := some (.hdPublic xprv),
                     devicePubKey :=
                       some (.pubOfHD (.deriveChild xprv Constants.PATHS_DEVICE_KEY)) }
        | none => d
      let step : Except PreconditionErr Device :=
        match d.entropySource with
        | some ent =>
            let priv := CVal.privFromSeed (hashFromEntropy ent "reqPrivKey" 32)
            .ok { d with requestPrivKey := some priv,
                         requestPubKey := some (.pubOfPriv priv) }
        | none =>
            match d.xPrivKey with
            | some xprv =>
                let rd := CVal.deriveChild xprv Constants.PATHS_REQUEST_KEY
                .ok { d with requestPrivKey := some (.privOfHD rd),
                             requestPubKey := some (.pubOfHD rd),
                             entropySource := some (.hexEncode (.sha256 (.privOfHD rd))) }
            | none => .error .invalidState
      step.map (fun d =>
        { d with
          personalEncryptingKey :=
            some (.base64 (hashFromEntropy (d.entropySource.getD (.lit "")) "personalKey" 16)),
          deviceId := some (pubToDeviceId (d.devicePubKey.getD (.lit ""))) }))

/-- `Device.prototype.isPrivKeyEncrypted`. -/
def Device.isPrivKeyEncrypted (d : Device) : Bool :=
  d.xPrivKeyEncrypted.isSome && d.xPrivKey.isNone

/-- `Device.prototype.encryptPrivateKey(password)`.  The mnemonic is also
wrapped when present; the plaintext key and mnemonic are then deleted. -/
def encryptPrivateKey (d : Device) (password : String) : Except Unit Device :=
  if d.xPrivKeyEncrypted.isSome then .error ()
  else match d.xPrivKey with
  | none => .error ()
  | some xprv =>
      let mne : Option (Enc String) :=
        if truthyStr d.mnemonic then some (sjclEncrypt password (d.mnemonic.getD ""))
        else d.mnemonicEncrypted
      .ok { d with xPrivKeyEncrypted := some (sjclEncrypt password xprv),
                   mnemonicEncrypted := mne,
                   xPrivKey := none,
                   mnemonic := none }

/-- `Device.prototype.decryptPrivateKey(password)`.  A thrown
`Could not decrypt` is modelled as `Except.error` carrying the device state
at the moment the fault is raised, so that (absence of) partial mutation is
expressible: the assignment to `xPrivKey` happens before the mnemonic is
decrypted, exactly as in the source. -/
def decryptPrivateKey (d : Device) (password : String) : Except Device Device :=
  if d.xPrivKeyEncrypted.isNone then .error d
  else match d.xPrivKeyEncrypted with
  | none => .error d
  | some env =>
      match sjclDecrypt password env with
      | .error _ => .error d
      | .ok xprv =>
          let d1 := { d with xPrivKey := some xprv }
          match d.mnemonicEncrypted with
          | some menv =>
              match sjclDecrypt password menv with
              | .error _ => .error d1
              | .ok mn =>
                  .ok { d1 with mnemonic := some mn,
                                xPrivKeyEncrypted := none,
                                mnemonicEncrypted := none }
          | none =>
              .ok { d1 with xPrivKeyEncrypted := none,
                            mnemonicEncrypted := none }

/-- `Device.prototype.getKeys(password)`: returns the plaintext
`(xPrivKey, mnemonic)`, decrypting them when the device is encrypted. -/
def getKeys (d : Device) (password : Option String) :
    Except Unit (Option CVal × Option String) :=
  if d.isPrivKeyEncrypted then
    match password with
    | none => .error ()
    | some pw =>
        if pw = "" then .error ()
        else
        match d.xPrivKeyEncrypted with
        | none => .error ()
        | some env =>
            match sjclDecrypt pw env with
            | .error _ => .error ()
            | .ok xprv =>
                match d.mnemonicEncrypted with
                | some menv =>
                    match sjclDecrypt pw menv with
                    | .error _ => .error ()
                    | .ok mn => .ok (some xprv, some mn)
                | none => .ok (some xprv, none)
  else
    .ok (d.xPrivKey, d.mnemonic)

/-- `Device.prototype.getBaseDerivationPath(account)`. -/
def getBaseDerivationPath (d : Device) (account : Nat) : String :=
  if d.derivationStrategy = some "BIP45" then "m/45\x27"
  else
    let purpose := if d.derivationStrategy = some "BIP44" then "44"
                   else if d.derivationStrategy = some "BIP48" then "48"
                   else "undefined"
    let coin := if d.network = some "livenet" then "0" else "1"
    "m/" ++ purpose ++ "\x27/" ++ coin ++ "\x27/" ++ toString account ++ "\x27"

/-- `Device.prototype.getDerivedXPrivKey(account, password)`.  A device
without a usable plaintext key is modelled as a fault (the underlying
library would fabricate a fresh random key there, which no claim relies
on and which a pure model cannot produce). -/
def getDerivedXPrivKey (d : Device) (account : Nat) (password : Option String) :
    Except Unit CVal :=
  (getKeys d password).bind (fun ks =>
    match ks.1 with
    | none => .error ()
    | some xprv => .ok (.deriveChild xprv (getBaseDerivationPath d account)))

/-- `Device.prototype.getNewAccount`. -/
def getNewAccount (d : Device) : Nat :=
  let accounts := (d.copayers.getD []).map (fun c => c.account.getD 0)
  match accounts with
  | [] => 0
  | a :: rest => (rest.foldl max a) + 1

/-- `Device.prototype.addCopayer(account, opts)` (lib/device.js).  The
source guard is `if (account in accounts)`, and the JavaScript `in`
operator on an array tests its KEYS (the indices `0 .. length-1`), not its
values; the refusal (`return null`, modelled `.ok (d, none)`) therefore
fires exactly when `account < accounts.length`. -/
def addCopayer (d : Device) (account : Nat) (password : Option String) :
    Except Unit (Device × Option CopayerObj) :=
  let accounts := (d.copayers.getD []).map (fun c => c.account.getD 0)
  if account < accounts.length then
    .ok (d, none)
  else
    (getDerivedXPrivKey d account password).bind (fun xPriv =>
      match copayerFromExtendedPublicKey d.deviceId (.hdPublic xPriv) account none with
      | .error _ => .error ()
      | .ok cop =>
          .ok ({ d with copayers := some ((d.copayers.getD []) ++ [cop]) },
               some cop))

/-- `Device.fromObj(obj)`: copies the persisted fields, fills the coin,
network and derivation-strategy defaults, and rebuilds each copayer via
`Copayer.fromObj` (lodash `_.map` over a missing list yields `[]`). -/
def deviceFromObj (o : Device) : Except PreconditionErr Device :=
  let x := { o with
             coin := jsOrStr o.coin (some "obyte"),
             network := jsOrStr o.network (some "livenet"),
             derivationStrategy := jsOrStr o.derivationStrategy (some "BIP44") }
  ((o.copayers.getD []).mapM copayerFromObj).map (fun cs =>
    { x with copayers := some cs })

/-- `API.prototype.export` (default options) followed by
`API.prototype.import`: `export` is `JSON.stringify(Device.fromObj(device)
.toObj())` and `import` is `Device.fromObj(JSON.parse(str))`.  `toObj`
copies exactly the persisted fields (the identity on this record), and the
JSON round trip is the identity on this flat data (absent fields are
dropped by `stringify` and read back as `undefined`), so the composite is
`fromObj` applied twice. -/
def apiExportImport (d : Device) : Except PreconditionErr Device :=
  (deviceFromObj d).bind deviceFromObj

/-- An address record as returned by the coordination server
(`createAddress` response): the fields `Verifier.checkAddress` reads. -/
structure ServerAddress : Type where
  address : Addr
  path : String
  type : Option String := none
  deriving DecidableEq, Repr

/-- `Verifier.checkAddress(copayer, address)` (lib/api.js): recomputes the
address locally and compares.  Note the address type fed to
`deriveAddress` is `address.type || copayer.addressType` — the
server-supplied tag wins whenever it is truthy. -/
def checkAddress (c : CopayerObj) (a : ServerAddress) :
    Except PreconditionErr Bool :=
  if ¬ c.isComplete then .error .invalidState
  else
    (deriveAddress c.walletId (jsOrStr a.type c.addressType)
        (c.publicKeyRing.getD []) a.path c.m).map
      (fun localDef => localDef.address = some a.address)

/-- One copayer entry of the server's `wallet.copayers` list: the fields
`Verifier.checkCopayers` reads. -/
structure ServerCopayer : Type where
  name : Option String := none
  encryptedName : Option String := none
  xPubKey : Option CVal := none
  requestPubKey : Option CVal := none
  signature : Option String := none
  deriving DecidableEq, Repr

/-- `Utils.getCopayerHash`: the signed message is
`[name, xPubKey, requestPubKey].join("|")`; the triple determines the
string, so it is modelled as the triple itself. -/
structure CopayerHashMsg : Type where
  name : Option String
  xPubKey : Option CVal
  requestPubKey : Option CVal
  deriving DecidableEq, Repr

/-- The value stored in one slot of a JavaScript array/object under the
`uniq[...]++` idiom: it starts `undefined`, a first postfix increment
stores `NaN`, and every later increment keeps `NaN`. -/
inductive JsNum : Type where
  | undef
  | nan
  | num : Nat → JsNum
  deriving DecidableEq, Repr

def JsNum.truthy : JsNum → Bool
  | .undef => false
  | .nan => false
  | .num n => n ≠ 0

def JsNum.incr : JsNum → JsNum
  | .undef => .nan
  | .nan => .nan
  | .num n => .num (n + 1)

/-- State of the `_.each(copayers, ...)` scan in `Verifier.checkCopayers`:
`cell` is `uniq[copayers.xPubKey]`.  The subscript is `copayers.xPubKey`
— a property read on the ARRAY, which is `undefined` — so every iteration
touches this same single slot, whose old value (returned by the postfix
`++`) is never truthy: the repeated-key branch can never set `error`. -/
structure CopayerScanState : Type where
  cell : JsNum
  error : Bool
  deriving DecidableEq, Repr

/-- One iteration of the `_.each` body in `Verifier.checkCopayers`.
`verify` is the external ECDSA verification primitive
(`Utils.verifyMessage`), taking the hashed message, the signature and the
wallet public key. -/
def copayerScanStep (verify : CopayerHashMsg → String → CVal → Bool)
    (walletPubKey : CVal) (st : CopayerScanState) (c : ServerCopayer) :
    CopayerScanState :=
  if st.error then st
  else
    let dup := st.cell.truthy
    let st : CopayerScanState := { cell := st.cell.incr, error := st.error || dup }
    if ¬ truthyStr (jsOrStr c.encryptedName c.name) ∨ ¬ truthyC c.xPubKey ∨
       ¬ truthyC c.requestPubKey ∨ ¬ truthyStr c.signature then
      { st with error := true }
    else if ¬ verify ⟨jsOrStr c.encryptedName c.name, c.xPubKey, c.requestPubKey⟩
               (c.signature.getD "") walletPubKey then
      { st with error := true }
    else st

/-- `Verifier.checkCopayers(copayer, copayers)` (lib/api.js). -/
def checkCopayers (verify : CopayerHashMsg → String → CVal → Bool)
    (c : CopayerObj) (copayers : List ServerCopayer) :
    Except PreconditionErr Bool :=
  match c.walletPrivKey with
  | none => .error .invalidState
  | some wpriv =>
      let walletPubKey := CVal.pubOfPriv wpriv
      if c.n ≠ some copayers.length then .ok false
      else
        let final := copayers.foldl (copayerScanStep verify walletPubKey)
          { cell := .undef, error := false }
        if final.error then .ok false
        else if ¬ copayers.any (fun sc => sc.xPubKey = c.xPubKey) then .ok false
        else .ok true

/-- One `{address, amount}` output of a payment. -/
structure Output : Type where
  address : String
  amount : Int
  deriving DecidableEq, Repr

/-- The `params` sub-object of a payment proposal; `change_address` is `""`
when absent (JavaScript `undefined` — both are falsy and `strEqual`
identifies falsy values). -/
structure PayParams : Type where
  outputs : List Output := []
  change_address : String := ""
  send_all : Bool := false
  deriving DecidableEq, Repr

/-- The client's own submitted proposal arguments, as passed to
`Verifier.checkProposalCreation`: `message` is the encrypted message
envelope (or absent). -/
structure ProposalArgs : Type where
  app : String
  params : PayParams := {}
  message : Option (Enc String) := none
  customData : Option String := none
  deriving DecidableEq, Repr

/-- The server's returned proposal, as read by
`Verifier.checkProposalCreation`. -/
structure ServerProposal : Type where
  params : PayParams := {}
  message : Option String := none
  customData : Option String := none
  deriving DecidableEq, Repr

/-- The helper `strEqual(str1, str2)` inside `checkProposalCreation`:
`(!str1 && !str2) || (str1 === str2)`. -/
def strEqual (s1 s2 : String) : Bool :=
  (s1 = "" ∧ s2 = "") ∨ s1 = s2

/-- `strEqual` applied to possibly-`undefined` strings (as in the message
comparison): any two falsy values are identified. -/
def strEqualO (s1 s2 : Option String) : Bool :=
  (¬ truthyStr s1 ∧ ¬ truthyStr s2) ∨ s1 = s2

/-- `Utils.decryptMessage(cyphertextJson, encryptingKey)`: a missing
ciphertext returns `undefined` without consulting the key; a missing key
or a wrong password throws. -/
def decryptMessage (ct : Option (Enc String)) (key : String) :
    Except Unit (Option String) :=
  match ct with
  | none => .ok none
  | some c =>
      if key = "" then .error ()
      else (sjclDecrypt key c).map some

/-- The output-matching loop of `checkProposalCreation`: for each submitted
output, `outputs.find(...)` locates a server output with the same address
and amount, and `outputs.splice(ret, 1)` is then meant to delete it — but
`ret` is the FOUND OBJECT, not an index; JavaScript coerces it to `NaN`
and then to the start index `0`, so the element actually removed is always
the current head of the remaining list.  Returns the remaining server
outputs, or `none` when some submitted output has no match. -/
def matchOutputsLoop (submitted : List Output) (outputs : List Output) :
    Option (List Output) :=
  match submitted with
  | [] => some outputs
  | o :: rest =>
      match outputs.find? (fun item =>
          strEqual o.address item.address && o.amount = item.amount) with
      | none => none
      | some _ => matchOutputsLoop rest (outputs.drop 1)

/-- The trailing message/customData checks of `checkProposalCreation`
(shared by payment and non-payment proposals). -/
def checkMessageAndCustomData (args : ProposalArgs) (txp : ServerProposal)
    (encryptingKey : String) : Bool :=
  match decryptMessage args.message encryptingKey with
  | .error _ => false
  | .ok decrypted =>
      if ¬ strEqualO txp.message decrypted then false
      else if (truthyStr args.customData ∨ truthyStr txp.customData) ∧
              txp.customData ≠ args.customData then false
      else true

/-- `Verifier.checkProposalCreation(args, txp, encryptingKey)`
(lib/api.js). -/
def checkProposalCreation (args : ProposalArgs) (txp : ServerProposal)
    (encryptingKey : String) : Except Unit Bool :=
  if args.app = "payment" ∧ args.params.send_all then
    match args.params.outputs, txp.params.outputs with
    | a0 :: _, t0 :: _ => .ok (a0.address = t0.address)
    | _, _ => .error ()
  else
    if args.app = "payment" then
      let changeAddress := txp.params.change_address
      if args.params.change_address ≠ "" ∧
         ¬ strEqual changeAddress args.params.change_address then .ok false
      else
        match matchOutputsLoop args.params.outputs txp.params.outputs with
        | none => .ok false
        | some remaining =>
            if txp.params.change_address ≠ "" ∧ remaining.length ≠ 1 then .ok false
            else if txp.params.change_address = "" ∧ remaining.length ≠ 0 then .ok false
            else .ok (checkMessageAndCustomData args txp encryptingKey)
    else
      .ok (checkMessageAndCustomData args txp encryptingKey)

/-! Concrete fixtures used by the counterexamples and witnesses below. -/

/-- A payment output paying 1 unit to address `"AAA"`. -/
def outA : Output := { address := "AAA", amount := 1 }

/-- A payment output paying 1 unit to address `"BBB"`. -/
def outB : Output := { address := "BBB", amount := 1 }

/-- Submitted proposal arguments: a payment with two identical outputs to
`"AAA"`, no change address, no send-all, no message, no custom data. -/
def argsDupPay : ProposalArgs :=
  { app := "payment", params := { outputs := [outA, outA] } }

/-- A tampered server proposal for `argsDupPay`: one of the two submitted
`"AAA"` outputs has been replaced by an output to `"BBB"`. -/
def txpSubstituted : ServerProposal :=
  { params := { outputs := [outB, outA] } }

/-- An ECDSA oracle under which every signature verifies: it stands for a
server that really did sign every entry with the wallet key. -/
def verifyAcceptAll : CopayerHashMsg → String → CVal → Bool := fun _ _ _ => true

/-- A wallet identity holding the wallet secret, expecting `n = 2`
copayers, with own extended public key `XPUB`. -/
def identDup : CopayerObj :=
  { walletPrivKey := some (.lit "WPRIV"), n := some 2,
    xPubKey := some (.lit "XPUB") }

/-- First server copayer entry: well-formed, signed, key `XPUB`. -/
def srvCopA : ServerCopayer :=
  { name := some "alice", xPubKey := some (.lit "XPUB"),
    requestPubKey := some (.lit "REQA"), signature := some "sigA" }

/-- Second server copayer entry: well-formed, signed, and carrying the SAME
extended public key `XPUB` as the first. -/
def srvCopB : ServerCopayer :=
  { name := some "bob", xPubKey := some (.lit "XPUB"),
    requestPubKey := some (.lit "REQB"), signature := some "sigB" }

/-- A single-member ring over the literal extended public key `X4`. -/
def ringNormal : List RingEntry := [{ xPubKey := .lit "X4" }]

/-- A complete 1-of-1 NORMAL wallet identity over `ringNormal`. -/
def copNormal : CopayerObj :=
  { walletId := some "w4", addressType := some "normal", m := some 1,
    n := some 1, publicKeyRing := some ringNormal,
    xPubKey := some (.lit "X4") }

/-- The SHARED-policy definition a server can trick `checkAddress` into
recomputing for `copNormal` by tagging its address record
`type: "shared"`. -/
def sharedDefX4 : Definition :=
  .rOfSet (some 1) [leafKeyB64 (.lit "X4") "m/0/0"]

/-- A server address record whose `type` field says `"shared"` although the
identity's own address type is `"normal"`, and whose address string is the
hash of the SHARED definition. -/
def srvAddrShared : ServerAddress :=
  { address := .chash sharedDefX4, path := "m/0/0", type := some "shared" }

/-- An uninitialized device holding only a livenet master private key (the
state `Device.fromExtendedPrivateKey` passes to the first `_expand`). -/
def devMaster : Device :=
  { coin := some "obyte", derivationStrategy := some "BIP44",
    xPrivKey := some (.lit "xprv6"), copayers := some [] }

/-- An expanded, decrypted device with a plaintext key and mnemonic. -/
def devPlain : Device :=
  { coin := some "obyte", network := some "livenet",
    derivationStrategy := some "BIP44", xPrivKey := some (.lit "xprv7"),
    mnemonic := some "word1 word2", copayers := some [] }

/-- A copayer as freshly created by `addCopayer` BEFORE `addWalletInfo`
runs: `addressType` has never been assigned. -/
def copNoType : CopayerObj :=
  { account := some 0, xPubKey := some (.lit "X8") }

/-- A device whose copayer list contains `copNoType`. -/
def devRound : Device :=
  { coin := some "obyte", network := some "livenet",
    derivationStrategy := some "BIP44", xPrivKey := some (.lit "xprv8"),
    copayers := some [copNoType] }

/-- The same device after an export/import round trip: the only difference
is the filled-in `addressType` default. -/
def devRoundFixed : Device :=
  { devRound with copayers := some [{ copNoType with addressType := some "normal" }] }

/-- Non-payment proposal arguments (`app = "data"`). -/
def argsData : ProposalArgs := { app := "data" }

/-- A server proposal with no message. -/
def txpNoMsg : ServerProposal := { params := { outputs := [outA] } }

/-- A server proposal identical to `txpNoMsg` except for its `message`
field. -/
def txpWithMsg : ServerProposal :=
  { params := { outputs := [outA] }, message := some "x" }

/-- A copayer occupying account 0. -/
def copAcc0 : CopayerObj := { account := some 0, xPubKey := some (.lit "XA") }

/-- A copayer occupying account 2. -/
def copAcc2 : CopayerObj := { account := some 2, xPubKey := some (.lit "XB") }

/-- A device whose copayers occupy accounts `[0, 2]`: account 1 is unused,
account 2 is used. -/
def devGap : Device :=
  { coin := some "obyte", network := some "livenet",
    derivationStrategy := some "BIP44", xPrivKey := some (.lit "xprv10"),
    deviceId := some (.devId (.lit "dev10")),
    copayers := some [copAcc0, copAcc2] }

/-- `devMaster` after its first expansion. -/
def devMasterExp1 : Device := (expand devMaster).toOption.getD {}

/-- `devMaster` after a second expansion. -/
def devMasterExp2 : Device := (expand devMasterExp1).toOption.getD {}

/-- `devPlain` after `encryptPrivateKey("pw")`. -/
def devPlainEnc : Device := (encryptPrivateKey devPlain "pw").toOption.getD {}

/-! Helper lemmas about the JavaScript-object model backing the
signing-path table. -/

theorem objLookup_cons (p : CVal × String) (m : List (CVal × String)) (k : CVal) :
    objLookup (p :: m) k = if p.1 = k then some p.2 else objLookup m k := by
  by_cases h : p.1 = k <;> simp [objLookup, List.find?_cons, h]

theorem objInsert_of_not_mem (m : List (CVal × String)) (k : CVal) (v : String)
    (h : ∀ p ∈ m, p.1 ≠ k) : objInsert m k v = m ++ [(k, v)] := by
  have hany : m.any (fun p => decide (p.1 = k)) = false := by
    rw [List.any_eq_false]
    intro p hp
    simpa using h p hp
  simp [objInsert, hany]

theorem objLookup_append_right (m : List (CVal × String)) (k : CVal) (v : String)
    (h : ∀ p ∈ m, p.1 ≠ k) : objLookup (m ++ [(k, v)]) k = some v := by
  induction m with
  | nil => simp [objLookup_cons]
  | cons p rest ih =>
      rw [List.cons_append, objLookup_cons]
      have hp : p.1 ≠ k := h p (List.mem_cons_self _ _)
      simp only [hp, if_false]
      exact ih (fun q hq => h q (List.mem_cons_of_mem _ hq))

theorem objLookup_map_update_ne (m : List (CVal × String)) (k kq : CVal)
    (v : String) (h : kq ≠ k) :
    objLookup (m.map (fun p => if p.1 = k then (k, v) else p)) kq =
      objLookup m kq := by
  induction m with
  | nil => rfl
  | cons p rest ih =>
      rw [List.map_cons, objLookup_cons, objLookup_cons]
      by_cases hp : p.1 = k
      · have h1 : ((k, v) : CVal × String).1 ≠ kq := fun he => h (he ▸ rfl)
        have h2 : p.1 ≠ kq := fun he => h (hp ▸ he ▸ rfl)
        simp only [hp, if_true, h1, h2, if_false, ih]
      · simp only [hp, if_false, ih]

theorem objLookup_append_one_ne (m : List (CVal × String)) (k kq : CVal)
    (v : String) (h : kq ≠ k) :
    objLookup (m ++ [(k, v)]) kq = objLookup m kq := by
  induction m with
  | nil =>
      have hk : k ≠ kq := fun he => h he.symm
      simp [objLookup_cons, hk, objLookup]
  | cons p rest ih =>
      rw [List.cons_append, objLookup_cons, objLookup_cons, ih]

theorem objLookup_objInsert_ne (m : List (CVal × String)) (k kq : CVal)
    (v : String) (h : kq ≠ k) :
    objLookup (objInsert m k v) kq = objLookup m kq := by
  unfold objInsert
  by_cases hany : m.any (fun p => decide (p.1 = k)) = true
  · simp only [hany, if_true]
    exact objLookup_map_update_ne m k kq v h
  · simp only [hany, if_false]
    exact objLookup_append_one_ne m k kq v h

theorem buildFrom_lookup_not_mem (ks : List CVal) :
    ∀ (i : Nat) (acc : List (CVal × String)) (k : CVal), k ∉ ks →
      objLookup (buildSigningPathsFrom i ks acc) k = objLookup acc k := by
  induction ks with
  | nil => intro i acc k _; rfl
  | cons k0 rest ih =>
      intro i acc k h
      rw [buildSigningPathsFrom]
      rw [ih (i + 1) _ k (fun hm => h (List.mem_cons_of_mem _ hm))]
      exact objLookup_objInsert_ne acc k0 k _
        (fun he => h (he ▸ List.mem_cons_self _ _))

theorem buildFrom_lookup_at (ks : List CVal) (hdist : ks.Pairwise (· ≠ ·)) :
    ∀ (i : Nat) (acc : List (CVal × String)), (∀ p ∈ acc, p.1 ∉ ks) →
      ∀ (j : Nat) (hj : j < ks.length),
        objLookup (buildSigningPathsFrom i ks acc) (ks.get ⟨j, hj⟩) =
          some ("r." ++ toString (i + j)) := by
  induction ks with
  | nil => intro i acc _ j hj; exact absurd hj (by simp)
  | cons k0 rest ih =>
      intro i acc hacc j hj
      obtain ⟨hk0, hrest⟩ := List.pairwise_cons.mp hdist
      have hnotin : k0 ∉ rest := fun hm => (hk0 _ hm) rfl
      have haccne : ∀ p ∈ acc, p.1 ≠ k0 :=
        fun p hp he => hacc p hp (he ▸ List.mem_cons_self _ _)
      cases j with
      | zero =>
          rw [buildSigningPathsFrom]
          show objLookup _ k0 = _
          rw [buildFrom_lookup_not_mem rest (i + 1) _ k0 hnotin]
          rw [objInsert_of_not_mem acc k0 _ haccne]
          rw [objLookup_append_right acc k0 _ haccne, Nat.add_zero]
      | succ j1 =>
          rw [buildSigningPathsFrom]
          have hj1 : j1 < rest.length := Nat.lt_of_succ_lt_succ hj
          have hacc1 : ∀ p ∈ objInsert acc k0 ("r." ++ toString i), p.1 ∉ rest := by
            rw [objInsert_of_not_mem acc k0 _ haccne]
            intro p hp
            rcases List.mem_append.mp hp with hin | hone
            · exact fun hm => hacc p hin (List.mem_cons_of_mem _ hm)
            · have : p = (k0, "r." ++ toString i) := by simpa using hone
              rw [this]
              exact hnotin
          have hrec := ih hrest (i + 1) (objInsert acc k0 ("r." ++ toString i))
            hacc1 j1 hj1
          have harith : (i + 1) + j1 = i + (j1 + 1) := by omega
          rw [harith] at hrec
          exact hrec

/-- C2: for every ring, non-hardened path, required-signature count and
wallet id: with address type NORMAL, `deriveAddress` requires a one-entry
ring (any other size faults) and produces the definition
`["sig", {pubkey}]` over the single leaf key derived at the path, with a
signing-path table mapping that key to the literal tag `"r"`; with address
type SHARED it produces `["r of set", {required: m, set: [["sig",{pubkey}],
...]}]` with the set in ring order, and — whenever the derived leaf keys
are pairwise distinct, which is what makes "the i-th key" well defined as
a table key — the signing-path table maps the i-th participant's leaf key
to the literal tag `"r.<i>"` (zero-based, ring order). -/
theorem C2_deriveAddress_policy :
    (∀ (wId : Option String) (e : RingEntry) (path : String) (m : Option Nat),
       deriveAddress wId (some "normal") [e] path m =
         .ok { address := some (.chash (.sig (leafKeyB64 e.xPubKey path))),
               definition := some (.sig (leafKeyB64 e.xPubKey path)),
               path := path,
               signingPaths := [(leafKeyB64 e.xPubKey path, "r")],
               walletId := wId }) ∧
    (∀ (wId : Option String) (ring : List RingEntry) (path : String)
       (m : Option Nat), ring.length ≠ 1 →
       deriveAddress wId (some "normal") ring path m = .error .invalidState) ∧
    (∀ (wId : Option String) (ring : List RingEntry) (path : String)
       (m : Option Nat),
       deriveAddress wId (some "shared") ring path m =
         .ok { address := some (.chash (.rOfSet m
                 (ring.map (fun e => leafKeyB64 e.xPubKey path)))),
               definition := some (.rOfSet m
                 (ring.map (fun e => leafKeyB64 e.xPubKey path))),
               path := path,
               signingPaths := buildSigningPathsFrom 0
                 (ring.map (fun e => leafKeyB64 e.xPubKey path)) [],
               walletId := wId }) ∧
    (∀ (ks : List CVal), ks.Pairwise (· ≠ ·) →
       ∀ (j : Nat) (hj : j < ks.length),
         objLookup (buildSigningPathsFrom 0 ks []) (ks.get ⟨j, hj⟩) =
           some ("r." ++ toString j)) := by
  refine ⟨?_, ?_, ?_, ?_⟩
  · intro wId e path m
    simp [deriveAddress, Constants.ADDRESS_TYPES, objInsert]
  · intro wId ring path m hlen
    simp [deriveAddress, Constants.ADDRESS_TYPES]
    exact hlen
  · intro wId ring path m
    simp [deriveAddress, Constants.ADDRESS_TYPES]
  · intro ks hdist j hj
    have h := buildFrom_lookup_at ks hdist 0 [] (by intro p hp; cases hp) j hj
    simpa using h

/-- Witness for `C2_deriveAddress_policy` at concrete inputs: a one-entry
ring under NORMAL, a wrong-sized NORMAL ring, and a three-key SHARED table
lookup at index 1. -/
theorem C2_deriveAddress_policy_witness :
    deriveAddress (some "w") (some "normal") [{ xPubKey := .lit "K" }] "m/0/0"
        (some 1) =
      .ok { address := some (.chash (.sig (leafKeyB64 (.lit "K") "m/0/0"))),
            definition := some (.sig (leafKeyB64 (.lit "K") "m/0/0")),
            path := "m/0/0",
            signingPaths := [(leafKeyB64 (.lit "K") "m/0/0", "r")],
            walletId := some "w" } ∧
    deriveAddress (some "w") (some "normal") [] "m/0/0" (some 1) =
      .error .invalidState ∧
    objLookup (buildSigningPathsFrom 0 [.lit "a", .lit "b", .lit "c"] [])
        (.lit "b") = some "r.1" := by
  refine ⟨C2_deriveAddress_policy.1 (some "w") { xPubKey := .lit "K" } "m/0/0" (some 1),
          C2_deriveAddress_policy.2.1 (some "w") [] "m/0/0" (some 1) (by decide), ?_⟩
  have h := C2_deriveAddress_policy.2.2.2 [.lit "a", .lit "b", .lit "c"]
    (by decide) 1 (by decide)
  exact h

/-- C5 counterexample: `"script"` is a recognized `ADDRESS_TYPES` value, so
it passes `$.checkArgument` although neither switch case handles it:
`deriveAddress` RETURNS (with `address` and `definition` undefined) instead
of failing with an input-validation fault, refuting the claim that every
address type other than NORMAL and SHARED faults. -/
theorem C5_script_returns_counterexample :
    deriveAddress (some "w") (some "script") ringNormal "m/0/0" (some 1) =
      .ok { address := none, definition := none, path := "m/0/0",
            signingPaths := [], walletId := some "w" } := by
  decide

/-- C5 amended: `deriveAddress` fails with an input-validation fault for
every address type outside the three-member constant `ADDRESS_TYPES`
(`normal`, `shared`, `script`) — including the missing value — and fails
for NORMAL whenever the ring does not have exactly one entry; for the
recognized-but-unhandled type `"script"` it does not fault but returns a
degenerate record whose `address` and `definition` are both absent, so it
still never returns a complete AddressDefinition outside NORMAL/SHARED. -/
theorem C5_deriveAddress_faults :
    (∀ (wId t : Option String) (ring : List RingEntry) (path : String)
       (m : Option Nat), (¬ ∃ s ∈ Constants.ADDRESS_TYPES, t = some s) →
       deriveAddress wId t ring path m = .error .invalidArgument) ∧
    (∀ (wId : Option String) (ring : List RingEntry) (path : String)
       (m : Option Nat), ring.length ≠ 1 →
       deriveAddress wId (some "normal") ring path m = .error .invalidState) ∧
    (∀ (wId : Option String) (ring : List RingEntry) (path : String)
       (m : Option Nat),
       deriveAddress wId (some "script") ring path m =
         .ok { address := none, definition := none, path := path,
               signingPaths := [], walletId := wId }) := by
  refine ⟨?_, ?_, ?_⟩
  · intro wId t ring path m h
    simp only [deriveAddress, h, not_false_iff, if_true]
  · intro wId ring path m hlen
    simp [deriveAddress, Constants.ADDRESS_TYPES]
    exact hlen
  · intro wId ring path m
    simp [deriveAddress, Constants.ADDRESS_TYPES]

/-- Witness for `C5_deriveAddress_faults`: the unknown type `"p2sh"` and a
missing type fault with `invalidArgument`; an empty NORMAL ring faults with
`invalidState`. -/
theorem C5_deriveAddress_faults_witness :
    deriveAddress (some "w") (some "p2sh") ringNormal "m/0/0" (some 1) =
      .error .invalidArgument ∧
    deriveAddress (some "w") none ringNormal "m/0/0" (some 1) =
      .error .invalidArgument ∧
    deriveAddress (some "w") (some "normal") [] "m/0/0" (some 1) =
      .error .invalidState :=
  ⟨C5_deriveAddress_faults.1 (some "w") (some "p2sh") ringNormal "m/0/0"
     (some 1) (by decide),
   C5_deriveAddress_faults.1 (some "w") none ringNormal "m/0/0"
     (some 1) (by decide),
   C5_deriveAddress_faults.2.1 (some "w") [] "m/0/0" (some 1) (by decide)⟩

/-- C4 counterexample: the server-supplied `type` field of the address
record DOES influence the recomputed address.  `copNormal` is a complete
NORMAL identity, yet a server record tagged `type: "shared"` whose address
string is the hash of the SHARED definition passes `checkAddress`, while
the recomputation from the identity's own address type does not match that
address — so the claimed "iff against the identity's own parameters, with
no influence from other server-supplied fields" is false. -/
theorem C4_server_type_counterexample :
    checkAddress copNormal srvAddrShared = .ok true ∧
    ((deriveAddress copNormal.walletId copNormal.addressType
        (copNormal.publicKeyRing.getD []) srvAddrShared.path
        copNormal.m).toOption.bind AddressDef.address) ≠
      some srvAddrShared.address := by
  decide

/-- C4 amended: for every complete identity, `checkAddress` compares the
server's address string against the address recomputed from the identity's
own walletId, public-key ring and m together with the server-supplied path
AND the server-supplied address-type tag (falling back to the identity's
own address type only when the server's tag is falsy); consequently, with
the path and type held fixed, substituting the server-reported address
string with any different one turns a passing check into a failing one. -/
theorem C4_checkAddress_recompute :
    ∀ (c : CopayerObj) (a : ServerAddress), c.isComplete = true →
      (checkAddress c a =
        (deriveAddress c.walletId (jsOrStr a.type c.addressType)
            (c.publicKeyRing.getD []) a.path c.m).map
          (fun l => decide (l.address = some a.address))) ∧
      (∀ (a2 : ServerAddress), a2.path = a.path → a2.type = a.type →
         a2.address ≠ a.address → checkAddress c a = .ok true →
         checkAddress c a2 = .ok false) := by
  intro c a hc
  constructor
  · simp [checkAddress, hc]
  · intro a2 hpath htype haddr htrue
    rw [checkAddress] at htrue ⊢
    simp only [hc, Bool.not_true, not_true_eq_false, if_false] at htrue ⊢
    rw [hpath, htype]
    cases hd : deriveAddress c.walletId (jsOrStr a.type c.addressType)
        (c.publicKeyRing.getD []) a.path c.m with
    | error e => rw [hd] at htrue; exact absurd htrue (by simp [Except.map])
    | ok l =>
        rw [hd] at htrue
        simp only [Except.map] at htrue ⊢
        have hl : l.address = some a.address := by
          have := Except.ok.inj htrue
          exact of_decide_eq_true this
        have hne : ¬ (l.address = some a2.address) := by
          rw [hl]
          intro he
          exact haddr (Option.some.inj he).symm
        simp [hne]

/-- Witness for `C4_checkAddress_recompute`: a passing NORMAL address
check, then the same record with only the address string replaced fails. -/
theorem C4_checkAddress_recompute_witness :
    checkAddress copNormal
        { address := .chash (.sig (leafKeyB64 (.lit "X4") "m/0/0")),
          path := "m/0/0", type := none } = .ok true ∧
    checkAddress copNormal
        { address := .raw "TAMPERED", path := "m/0/0", type := none } =
      .ok false := by
  have h := (C4_checkAddress_recompute copNormal
      { address := .chash (.sig (leafKeyB64 (.lit "X4") "m/0/0")),
        path := "m/0/0", type := none } (by decide)).2
      { address := .raw "TAMPERED", path := "m/0/0", type := none }
      rfl rfl (by decide) (by decide)
  exact ⟨by decide, h⟩

/-- C1: the output-matching loop of `checkProposalCreation` was meant to
enforce multiset equality, but `outputs.splice(ret, 1)` passes the FOUND
OBJECT where an index is expected, so index 0 is removed each time.  At
the failing input below — submitted outputs `[AAA:1, AAA:1]`, server
outputs `[BBB:1, AAA:1]`, no change address — the single remaining `AAA`
output satisfies both submitted copies (the first match removes `BBB`
instead of `AAA`), so a server that SUBSTITUTED one output's address is
accepted: the code returns true although the two output lists are not
multiset-equal, contradicting the claimed rejection. -/
theorem C1_substituted_output_accepted :
    ¬ txpSubstituted.params.outputs.Perm argsDupPay.params.outputs ∧
    txpSubstituted.params.change_address = "" ∧
    argsDupPay.params.send_all = false ∧
    checkProposalCreation argsDupPay txpSubstituted "" = .ok true := by
  refine ⟨by decide, by decide, by decide, by decide⟩

/-- C3: the repeated-key guard in `checkCopayers` reads
`uniq[copayers.xPubKey]`, a property of the ARRAY (always `undefined`), so
the slot steps undefined → NaN → NaN and the postfix `++`'s old value is
never truthy: the duplicate check cannot fire.  At the failing input —
two well-formed, correctly-signed entries carrying the SAME extended
public key `XPUB`, expected `n = 2`, own key present — `checkCopayers`
returns true although the claim (and the code's own comment
`// Repeated xpub kes?`) requires false. -/
theorem C3_duplicate_xpubs_accepted :
    srvCopA.xPubKey = srvCopB.xPubKey ∧
    checkCopayers verifyAcceptAll identDup [srvCopA, srvCopB] = .ok true := by
  refine ⟨by decide, by decide⟩

/-- One scan step keeps the slot in {undefined, NaN}: whatever the entry
and the oracle, the stored value can only step undefined → NaN → NaN. -/
theorem copayerScanStep_cell_flat
    (verify : CopayerHashMsg → String → CVal → Bool) (wpk : CVal)
    (c : ServerCopayer) (cell : JsNum) (err : Bool)
    (h : cell = .undef ∨ cell = .nan) :
    ((copayerScanStep verify wpk ⟨cell, err⟩ c).cell = .undef ∨
     (copayerScanStep verify wpk ⟨cell, err⟩ c).cell = .nan) := by
  rcases h with h | h <;> subst h <;> cases err <;>
    simp only [copayerScanStep, JsNum.incr, JsNum.truthy] <;>
    (repeat' split) <;> simp

/-- Supporting fact (not tied to one claim): starting from the initial
state, the slot read by the duplicate guard of `checkCopayers` is never a
number, for ANY oracle, wallet key and server list — the old value the
postfix `++` returns is therefore never truthy and the repeated-key branch
is dead code. -/
theorem copayerScan_dup_guard_dead
    (verify : CopayerHashMsg → String → CVal → Bool) (wpk : CVal)
    (copayers : List ServerCopayer) :
    ∀ (st : CopayerScanState), (st.cell = .undef ∨ st.cell = .nan) →
      ((copayers.foldl (copayerScanStep verify wpk) st).cell = .undef ∨
       (copayers.foldl (copayerScanStep verify wpk) st).cell = .nan) := by
  induction copayers with
  | nil => intro st h; exact h
  | cons c rest ih =>
      intro st h
      rw [List.foldl_cons]
      apply ih
      obtain ⟨cell, err⟩ := st
      exact copayerScanStep_cell_flat verify wpk c cell err h

/-- C9 counterexample: for a non-payment proposal the verdict ALSO depends
on the server proposal's own `message` field, which the claimed dependency
list (submitted encrypted message, key, the two `customData` fields) omits:
two server proposals agreeing on `customData` (and on everything the claim
lists) but differing in `message` receive different verdicts. -/
theorem C9_message_dependence_counterexample :
    argsData.app ≠ "payment" ∧
    txpNoMsg.customData = txpWithMsg.customData ∧
    checkProposalCreation argsData txpNoMsg "key" ≠
      checkProposalCreation argsData txpWithMsg "key" := by
  refine ⟨by decide, by decide, by decide⟩

/-- C9 amended: for every proposal whose app is not `"payment"`, the
verdict of `checkProposalCreation` depends only on the submitted encrypted
message, the decryption key, the SERVER PROPOSAL'S MESSAGE FIELD, and the
customData fields of the two sides; in particular any two server proposals
that differ only in their `params` field receive the same verdict, so
tampering with the params of a non-payment proposal is never detected by
this check. -/
theorem C9_nonpayment_params_ignored :
    ∀ (args : ProposalArgs) (key : String) (txp txp2 : ServerProposal),
      args.app ≠ "payment" → txp.message = txp2.message →
      txp.customData = txp2.customData →
      checkProposalCreation args txp key =
        checkProposalCreation args txp2 key := by
  intro args key txp txp2 happ hmsg hcd
  rw [checkProposalCreation, checkProposalCreation]
  have h1 : ¬ (args.app = "payment" ∧ args.params.send_all = true) := by
    intro hx; exact happ hx.1
  rw [if_neg h1, if_neg h1, if_neg happ, if_neg happ]
  rw [checkMessageAndCustomData, checkMessageAndCustomData, hmsg, hcd]

/-- Witness for `C9_nonpayment_params_ignored`: two server proposals
differing only in their outputs list receive the same verdict. -/
theorem C9_nonpayment_params_ignored_witness :
    checkProposalCreation argsData txpNoMsg "key" =
      checkProposalCreation argsData { params := { outputs := [outB] } } "key" :=
  C9_nonpayment_params_ignored argsData "key" txpNoMsg
    { params := { outputs := [outB] } } (by decide) rfl rfl

/-- C6 counterexample: `_expand` is NOT idempotent on the request keypair.
The first expansion of a private-key device derives `requestPrivKey` along
the fixed request path and then sets `entropySource`; a second expansion
finds `entropySource` set, takes the entropy branch, and rebuilds the
request keypair from the entropy hash — a different value.  (The remaining
derived fields do coincide; see the amended theorem.) -/
theorem C6_reexpansion_counterexample :
    expand devMaster = .ok devMasterExp1 ∧
    expand devMasterExp1 = .ok devMasterExp2 ∧
    devMasterExp2.requestPrivKey ≠ devMasterExp1.requestPrivKey ∧
    devMasterExp2.requestPubKey ≠ devMasterExp1.requestPubKey := by
  refine ⟨by decide, by decide, by decide, by decide⟩

/-- C6 amended: re-running `_expand` on an already-expanded device
reproduces `xPubKey`, `devicePubKey`, `entropySource`,
`personalEncryptingKey`, `deviceId` and `network` — but NOT the request
keypair, except when the device already had an entropy source before its
first expansion (the watch-only/hardware path), in which case re-expansion
is fully idempotent.  From the second expansion on, expansion is a
fixpoint. -/
theorem C6_reexpansion_partial :
    ∀ (d d1 d2 : Device), expand d = .ok d1 → expand d1 = .ok d2 →
      d2.xPrivKey = d1.xPrivKey ∧ d2.xPubKey = d1.xPubKey ∧
      d2.devicePubKey = d1.devicePubKey ∧
      d2.entropySource = d1.entropySource ∧
      d2.personalEncryptingKey = d1.personalEncryptingKey ∧
      d2.deviceId = d1.deviceId ∧ d2.network = d1.network ∧
      (d.entropySource.isSome = true → d2 = d1) ∧
      expand d2 = .ok d2 := by
  intro d d1 d2 h1 h2
  cases hx : d.xPrivKey with
  | some x =>
      cases he : d.entropySource with
      | some e =>
          cases hn : d.network with
          | none =>
              simp [expand, Except.bind, Except.map, hx, he, hn] at h1
              subst h1
              simp [expand, Except.bind, Except.map, hx, he] at h2
              subst h2
              refine ⟨rfl, rfl, rfl, rfl, rfl, rfl, rfl, fun _ => rfl, ?_⟩
              simp [expand, Except.bind, Except.map, hx, he]
          | some n =>
              by_cases hnet : n = getNetworkFromExtendedKey x
              · subst hnet
                simp [expand, Except.bind, Except.map, hx, he, hn] at h1
                subst h1
                simp [expand, Except.bind, Except.map, hx, he] at h2
                subst h2
                refine ⟨rfl, rfl, rfl, rfl, rfl, rfl, rfl, fun _ => rfl, ?_⟩
                simp [expand, Except.bind, Except.map, hx, he]
              · simp [expand, Except.bind, Except.map, hx, he, hn, hnet] at h1
      | none =>
          cases hn : d.network with
          | none =>
              simp [expand, Except.bind, Except.map, hx, he, hn] at h1
              subst h1
              simp [expand, Except.bind, Except.map, hx, he] at h2
              subst h2
              refine ⟨rfl, rfl, rfl, rfl, rfl, rfl, rfl, ?_, ?_⟩
              · intro hcontra; simp at hcontra
              · simp [expand, Except.bind, Except.map, hx, he]
          | some n =>
              by_cases hnet : n = getNetworkFromExtendedKey x
              · subst hnet
                simp [expand, Except.bind, Except.map, hx, he, hn] at h1
                subst h1
                simp [expand, Except.bind, Except.map, hx, he] at h2
                subst h2
                refine ⟨rfl, rfl, rfl, rfl, rfl, rfl, rfl, ?_, ?_⟩
                · intro hcontra; simp at hcontra
                · simp [expand, Except.bind, Except.map, hx, he]
              · simp [expand, Except.bind, Except.map, hx, he, hn, hnet] at h1
  | none =>
      cases hxp : d.xPubKey with
      | none => simp [expand, Except.bind, Except.map, hx, hxp] at h1
      | some xp =>
          cases hdp : d.devicePubKey with
          | none => simp [expand, Except.bind, Except.map, hx, hxp, hdp] at h1
          | some dp =>
              cases he : d.entropySource with
              | none => simp [expand, Except.bind, Except.map, hx, hxp, hdp, he] at h1
              | some e =>
                  cases hn : d.network with
                  | none =>
                      simp [expand, Except.bind, Except.map, hx, hxp, hdp, he, hn] at h1
                      subst h1
                      simp [expand, Except.bind, Except.map, hx, hxp, hdp, he] at h2
                      subst h2
                      refine ⟨rfl, rfl, rfl, rfl, rfl, rfl, rfl, fun _ => rfl, ?_⟩
                      simp [expand, Except.bind, Except.map, hx, hxp, hdp, he]
                  | some n =>
                      by_cases hnet : n = getNetworkFromExtendedKey xp
                      · subst hnet
                        simp [expand, Except.bind, Except.map, hx, hxp, hdp, he, hn] at h1
                        subst h1
                        simp [expand, Except.bind, Except.map, hx, hxp, hdp, he] at h2
                        subst h2
                        refine ⟨rfl, rfl, rfl, rfl, rfl, rfl, rfl, fun _ => rfl, ?_⟩
                        simp [expand, Except.bind, Except.map, hx, hxp, hdp, he]
                      · simp [expand, Except.bind, Except.map, hx, hxp, hdp, he, hn, hnet] at h1

/-- Witness for `C6_reexpansion_partial` at the concrete device
`devMaster` and its two expansions. -/
theorem C6_reexpansion_partial_witness :
    devMasterExp2.xPubKey = devMasterExp1.xPubKey ∧
    devMasterExp2.deviceId = devMasterExp1.deviceId ∧
    devMasterExp2.personalEncryptingKey = devMasterExp1.personalEncryptingKey ∧
    expand devMasterExp2 = .ok devMasterExp2 := by
  have h := C6_reexpansion_partial devMaster devMasterExp1 devMasterExp2
    (by decide) (by decide)
  exact ⟨h.2.1, h.2.2.2.2.2.1, h.2.2.2.2.1, h.2.2.2.2.2.2.2.2⟩

/-- C7: for every expanded device holding a plaintext private key (and no
stale encrypted envelopes), `encryptPrivateKey(pw)` followed by
`decryptPrivateKey(pw)` restores the device exactly — in particular the
original `xPrivKey` and `mnemonic` — while `decryptPrivateKey` with a
wrong password raises the decryption fault with the device state exactly
as it was after encryption: `xPrivKeyEncrypted` and `mnemonicEncrypted`
unchanged, no partial mutation.  (The hypothesis `mnemonic ≠ some ""`
excludes the unreachable empty-string mnemonic, which JavaScript
truthiness would treat as absent.) -/
theorem C7_encrypt_decrypt_roundtrip :
    ∀ (d : Device) (pw pw2 : String),
      d.xPrivKey.isSome = true → d.xPrivKeyEncrypted = none →
      d.mnemonicEncrypted = none → d.mnemonic ≠ some "" → pw2 ≠ pw →
      ∀ (de : Device), encryptPrivateKey d pw = .ok de →
        decryptPrivateKey de pw = .ok d ∧
        decryptPrivateKey de pw2 = .error de := by
  intro d pw pw2 hk henc hmenc hmn hpw de hde
  have hpw2 : pw ≠ pw2 := Ne.symm hpw
  obtain ⟨coin, network, strat, xprv, xpub, xenc, mn, mnenc, mhp, rpriv, rpub,
    pek, ent, did, dpk, cops⟩ := d
  simp only at hk henc hmenc hmn
  subst henc
  subst hmenc
  cases hx : xprv with
  | none => rw [hx] at hk; simp at hk
  | some k =>
      subst hx
      cases hm : mn with
      | none =>
          subst hm
          simp [encryptPrivateKey, truthyStr, sjclEncrypt] at hde
          subst hde
          constructor
          · simp [decryptPrivateKey, sjclDecrypt]
          · simp [decryptPrivateKey, sjclDecrypt, hpw2]
      | some m =>
          subst hm
          have hm0 : m ≠ "" := fun h => hmn (by rw [h])
          simp [encryptPrivateKey, truthyStr, sjclEncrypt, hm0] at hde
          subst hde
          constructor
          · simp [decryptPrivateKey, sjclDecrypt]
          · simp [decryptPrivateKey, sjclDecrypt, hpw2]

/-- Witness for `C7_encrypt_decrypt_roundtrip` at the concrete device
`devPlain` with password `"pw"` and wrong password `"nope"`. -/
theorem C7_encrypt_decrypt_roundtrip_witness :
    decryptPrivateKey devPlainEnc "pw" = .ok devPlain ∧
    decryptPrivateKey devPlainEnc "nope" = .error devPlainEnc :=
  C7_encrypt_decrypt_roundtrip devPlain "pw" "nope" (by decide) (by decide)
    (by decide) (by decide) (by decide) devPlainEnc (by decide)

/-- A copayer whose `account`, `xPubKey` and `addressType` are all set (and
truthy) passes through `Copayer.fromObj` unchanged. -/
theorem copayerFromObj_fixed (c : CopayerObj)
    (ha : c.account.isSome = true) (hx : truthyC c.xPubKey = true)
    (ht : truthyStr c.addressType = true) : copayerFromObj c = .ok c := by
  obtain ⟨acc, cid, cname, xpub, wid, wname, m, n, ring, wpriv, sek, atype⟩ := c
  simp only at ha hx ht
  cases acc with
  | none => simp at ha
  | some a => simp [copayerFromObj, jsOrStr, ht, hx]

/-- Mapping `Copayer.fromObj` over a list it fixes pointwise yields the
list unchanged. -/
theorem mapM_copayerFromObj_fixed : ∀ (cs : List CopayerObj),
    (∀ c ∈ cs, copayerFromObj c = .ok c) →
    cs.mapM copayerFromObj = .ok cs := by
  intro cs
  induction cs with
  | nil => intro _; rfl
  | cons c rest ih =>
      intro h
      rw [List.mapM_cons, h c (List.mem_cons_self _ _),
        ih (fun q hq => h q (List.mem_cons_of_mem _ hq))]
      rfl

/-- C8 counterexample: the export/import round trip is NOT the identity on
every persisted field.  `devRound` holds a copayer created by `addCopayer`
before `addWalletInfo`, whose persisted `addressType` field is unset;
`Copayer.fromObj` (run by both export and import) fills in the NORMAL
default, so the round trip returns a device differing from the original on
that persisted field. -/
theorem C8_roundtrip_counterexample :
    apiExportImport devRound = .ok devRoundFixed ∧ devRoundFixed ≠ devRound := by
  refine ⟨by decide, by decide⟩

/-- C8 amended: `import(export(x)) = x` on every persisted field provided
the defaultable fields are actually set: the device's coin, network and
derivation strategy are set and non-empty, the copayer list is present,
and every copayer has its `account`, `xPubKey` and `addressType` set;
otherwise import fills in the documented defaults (coin `obyte`, network
`livenet`, strategy `BIP44`, account `0`, addressType `normal`) and the
round trip differs from the original exactly on those fields. -/
theorem C8_export_import_roundtrip :
    ∀ (d : Device) (cs : List CopayerObj),
      d.copayers = some cs →
      truthyStr d.coin = true → truthyStr d.network = true →
      truthyStr d.derivationStrategy = true →
      (∀ c ∈ cs, c.account.isSome = true ∧ truthyC c.xPubKey = true ∧
        truthyStr c.addressType = true) →
      apiExportImport d = .ok d := by
  intro d cs hcs hcoin hnet hstrat hall
  have hmap : cs.mapM copayerFromObj = .ok cs :=
    mapM_copayerFromObj_fixed cs (fun c hc =>
      copayerFromObj_fixed c (hall c hc).1 (hall c hc).2.1 (hall c hc).2.2)
  have hfrom : deviceFromObj d = .ok d := by
    obtain ⟨coin, network, strat, xprv, xpub, xenc, mn, mnenc, mhp, rpriv,
      rpub, pek, ent, did, dpk, cops⟩ := d
    simp only at hcs hcoin hnet hstrat
    subst hcs
    simp only [deviceFromObj, Option.getD_some]
    rw [hmap]
    simp [jsOrStr, hcoin, hnet, hstrat, Except.map]
  simp [apiExportImport, hfrom, Except.bind]

/-- Witness for `C8_export_import_roundtrip` at the concrete device
`devRoundFixed`, whose one copayer has every defaultable field set. -/
theorem C8_export_import_roundtrip_witness :
    apiExportImport devRoundFixed = .ok devRoundFixed :=
  C8_export_import_roundtrip devRoundFixed
    [{ copNoType with addressType := some "normal" }]
    (by decide) (by decide) (by decide) (by decide) (by decide)

/-- C10: `addCopayer(account)` refuses (returns null, without mutating)
exactly when `account` is a valid INDEX into the current copayers array —
`account in accounts` tests the array's keys, not its values — and not
when some existing copayer already occupies that account number.
Concretely, with existing accounts `[0, 2]`: `addCopayer 1` is rejected
although account 1 is unused, while `addCopayer 2` adds a second copayer
with the already-used account number 2. -/
theorem C10_addCopayer_index_not_membership :
    (∀ (d : Device) (account : Nat) (pw : Option String),
       addCopayer d account pw = .ok (d, none) ↔
         account < ((d.copayers.getD []).map (fun c => c.account.getD 0)).length) ∧
    ((devGap.copayers.getD []).map (fun c => c.account.getD 0) = [0, 2] ∧
     addCopayer devGap 1 none = .ok (devGap, none) ∧
     ((addCopayer devGap 2 none).toOption.bind (fun p => p.2)).map
        (fun c => c.account) = some (some 2) ∧
     addCopayer devGap 2 none ≠ .ok (devGap, none)) := by
  constructor
  · intro d account pw
    constructor
    · intro h
      rw [addCopayer] at h
      by_cases hlt : account <
          ((d.copayers.getD []).map (fun c => c.account.getD 0)).length
      · exact hlt
      · exfalso
        rw [if_neg hlt] at h
        cases hg : getDerivedXPrivKey d account pw with
        | error e => rw [hg] at h; simp [Except.bind] at h
        | ok x =>
            rw [hg] at h
            simp only [Except.bind] at h
            cases hc : copayerFromExtendedPublicKey d.deviceId (.hdPublic x)
                account none with
            | error e => rw [hc] at h; simp at h
            | ok cop => rw [hc] at h; simp at h
    · intro h
      rw [addCopayer, if_pos h]
  · refine ⟨by decide, by decide, by decide, by decide⟩

/-- Witness for `C10_addCopayer_index_not_membership`: the refusal at the
unused account number 1 obtained through the theorem's equivalence. -/
theorem C10_addCopayer_index_not_membership_witness :
    addCopayer devGap 1 none = .ok (devGap, none) :=
  (C10_addCopayer_index_not_membership.1 devGap 1 none).mpr (by decide)
